import Mathlib

/-!
Verification of the analemma simulation core.

Shallow embedding of `src/main.rs`: the solar-position model
(`equation_of_time`, `solar_declination`, `calculate_sun_position`), the
simulation state (`AnnalemmaSimulation` with its constructor `new`, the
per-tick `update`, the projection `screen_position`, the stateful
`draw_current_sun`, and the `season_colour` classification).  Machine
floats are embedded as real numbers; the Rust `%` operator on `f64` and
the saturating `as u32` cast are modelled explicitly.
-/

open Real

namespace Analemma

/-- Viewport width constant from the source (`WIDTH`). -/
def WIDTH : ℝ := 540.0

/-- Viewport height constant from the source (`HEIGHT`). -/
def HEIGHT : ℝ := 960.0

/-- One precomputed sun sample: horizontal offset `x` (equation of time),
vertical offset `y` (declination), and its day-of-year index. -/
structure SunPosition where
  x : ℝ
  y : ℝ
  day : ℕ

/-- The simulation state: the precomputed year of sun positions, the
animated current day counter, and the animation speed. -/
structure AnnalemmaSimulation where
  sun_positions : List SunPosition
  current_day : ℕ
  animation_speed : ℝ

/-- Truncation toward zero, the rounding used by Rust float-to-integer
casts and by the float remainder operator. -/
noncomputable def f64_trunc (x : ℝ) : ℤ := if 0 ≤ x then ⌊x⌋ else ⌈x⌉

/-- Rust `%` on `f64`: remainder of truncating division, keeping the sign
of the dividend. -/
noncomputable def f64_rem (x y : ℝ) : ℝ := x - y * f64_trunc (x / y)

/-- Rust `as u32` on a finite `f64`: truncate toward zero and saturate
into `[0, 2^32 - 1]`. -/
noncomputable def f64_as_u32 (x : ℝ) : ℕ := min (f64_trunc x).toNat (2 ^ 32 - 1)

/-- Embedding of `AnnalemmaSimulation::equation_of_time` (src/main.rs,
lines 75-85).  Note the divisor `365.35` in the day angle. -/
noncomputable def equation_of_time (day_of_year : ℝ) : ℝ :=
  let day_angle := day_of_year / 365.35 * 2 * π
  let eccentricity_term := 9.655 * Real.sin (2 * day_angle)
  let obliquity_term := 7.873 * Real.sin (day_angle + 3.588)
  let equation_minutes := eccentricity_term + obliquity_term
  equation_minutes / 4.0

/-- Embedding of `AnnalemmaSimulation::solar_declination` (src/main.rs,
lines 87-95). -/
noncomputable def solar_declination (day_of_year : ℝ) : ℝ :=
  let day_angle := day_of_year / 365.25 * 2 * π
  let axial_tilt : ℝ := 23.44
  let solstice_offset := day_angle - 172.0 / 365.25 * 2 * π
  axial_tilt * Real.cos solstice_offset

/-- Embedding of `AnnalemmaSimulation::calculate_sun_position`
(src/main.rs, lines 67-73); the `position_for_day` operation of the spec. -/
noncomputable def calculate_sun_position (day_of_year : ℝ) : ℝ × ℝ :=
  (equation_of_time day_of_year, solar_declination day_of_year)

/-- Embedding of `AnnalemmaSimulation::new` (src/main.rs, lines 48-65):
one sample per integer day in `0..365`, initial day 136, speed 1. -/
noncomputable def AnnalemmaSimulation.new : AnnalemmaSimulation :=
  { sun_positions :=
      (List.range 365).map fun day =>
        let pos := calculate_sun_position (day : ℕ)
        { x := pos.1, y := pos.2, day := day }
    current_day := 136
    animation_speed := 1.0 }

/-- Embedding of `AnnalemmaSimulation::update` (src/main.rs, lines
97-100): the stored `u32` day counter is pushed through `f64` arithmetic,
the float remainder by `365.0`, and the saturating cast back to `u32`. -/
noncomputable def AnnalemmaSimulation.update (s : AnnalemmaSimulation) (dt : ℝ) :
    AnnalemmaSimulation :=
  { s with
    current_day :=
      f64_as_u32 (f64_rem ((s.current_day : ℝ) + s.animation_speed * dt * 60.0) 365.0) }

/-- Embedding of `AnnalemmaSimulation::screen_position` (src/main.rs,
lines 102-115). -/
noncomputable def screen_position (sun_pos : SunPosition) : ℝ × ℝ :=
  let center_x := WIDTH / 2.0
  let center_y := HEIGHT / 2.0
  let x_scale : ℝ := 15.0
  let y_scale : ℝ := 8.0
  (center_x + sun_pos.x * x_scale, center_y - sun_pos.y * y_scale)

/-- Embedding of `AnnalemmaSimulation::draw_current_sun` (src/main.rs,
lines 167-182): look the current day up with `Vec::get`; when it hits,
run the `for i in 0..=365` loop of unit increments on `current_day` and
emit the marker at the screen position of the sample fetched before the
mutation; when it misses, draw nothing and leave the state alone. -/
noncomputable def AnnalemmaSimulation.draw_current_sun (s : AnnalemmaSimulation) :
    AnnalemmaSimulation × Option (ℝ × ℝ) :=
  match s.sun_positions.get? s.current_day with
  | some current_pos =>
      ({ s with current_day := (List.range 366).foldl (fun c _ => c + 1) s.current_day },
        some (screen_position current_pos))
  | none => (s, none)

/-- Embedding of `AnnalemmaSimulation::season_colour` (src/main.rs, lines
215-223), with the `[f32; 4]` colour embedded as a rational 4-tuple. -/
def season_colour (day : ℕ) : ℚ × ℚ × ℚ × ℚ :=
  if day ≤ 79 then (0.4, 0.4, 1.0, 1.0)
  else if 80 ≤ day ∧ day ≤ 171 then (0.5, 1.0, 0.5, 1.0)
  else if 172 ≤ day ∧ day ≤ 265 then (1.0, 0.8, 0.3, 1.0)
  else if 266 ≤ day ∧ day ≤ 365 then (1.0, 0.5, 0.2, 1.0)
  else (1.0, 1.0, 1.0, 1.0)

/-- Horizontal-offset formula exactly as the specification words it:
coefficients `A1`, `A2` and the day-angle `divisor` are parameters, the
phase `3.588` and the final division by 4 are fixed. -/
noncomputable def spec_horizontal_offset (A1 A2 divisor day_of_year : ℝ) : ℝ :=
  let day_angle := day_of_year / divisor * 2 * π
  (A1 * Real.sin (2 * day_angle) + A2 * Real.sin (day_angle + 3.588)) / 4

/-- Vertical-offset formula exactly as the specification words it:
axial tilt 23.44 times the cosine of the day angle phase-shifted to put
the peak at day 172. -/
noncomputable def spec_vertical_offset (day_of_year : ℝ) : ℝ :=
  23.44 * Real.cos (day_of_year / 365.25 * (2 * π) - 172 / 365.25 * (2 * π))

/-- C4: for every real `day_of_year` the vertical offset computed by the
program equals `23.44 * cos(day_angle - (172 / 365.25) * 2π)` with
`day_angle = (day_of_year / 365.25) * 2π`. -/
theorem C4_solar_declination_formula (day_of_year : ℝ) :
    solar_declination day_of_year = spec_vertical_offset day_of_year := by
  unfold solar_declination spec_vertical_offset
  ring_nf

/-- C5: projecting the sample with horizontal offset 0, vertical offset
23.44 and day 172 through `screen_position` yields exactly
`(270, 480 - 23.44 * 8) = (270, 292.48)`. -/
theorem C5_project_solstice_sample :
    screen_position { x := 0, y := 23.44, day := 172 } = (270, 480 - 23.44 * 8) ∧
      ((480 : ℝ) - 23.44 * 8 = 292.48) ∧ WIDTH / 2 = 270 ∧ HEIGHT / 2 = 480 := by
  refine ⟨?_, by norm_num, by norm_num [WIDTH], by norm_num [HEIGHT]⟩
  unfold screen_position WIDTH HEIGHT
  norm_num

/-- Folding unit increments over a list adds its length; this is the
meaning of the `for i in 0..=365` counter loop in `draw_current_sun`. -/
theorem foldl_add_one_eq_add_length (l : List ℕ) (c : ℕ) :
    l.foldl (fun c _ => c + 1) c = c + l.length := by
  induction l generalizing c with
  | nil => simp
  | cons a l ih => simp [List.foldl_cons, ih]; omega

/-- C6: the constructor builds exactly 365 samples, in ascending day
order, and sample `i` carries day index `i` together with the horizontal
and vertical offsets that `position_for_day i` computes. -/
theorem C6_year_path_samples :
    AnnalemmaSimulation.new.sun_positions.length = 365 ∧
      ∀ i : Fin AnnalemmaSimulation.new.sun_positions.length,
        (AnnalemmaSimulation.new.sun_positions.get i).day = i.val ∧
          (AnnalemmaSimulation.new.sun_positions.get i).x = equation_of_time i.val ∧
          (AnnalemmaSimulation.new.sun_positions.get i).y = solar_declination i.val := by
  constructor
  · simp [AnnalemmaSimulation.new]
  · intro i
    simp [AnnalemmaSimulation.new, List.get_map, calculate_sun_position]

/-- C7: for every day of the year in `[0, 365)` the vertical offset lies
in the closed interval `[-23.44, 23.44]`. -/
theorem C7_declination_bounded (day_of_year : ℝ) (h0 : 0 ≤ day_of_year)
    (h1 : day_of_year < 365) :
    -23.44 ≤ solar_declination day_of_year ∧ solar_declination day_of_year ≤ 23.44 := by
  unfold solar_declination
  constructor <;>
    nlinarith [Real.neg_one_le_cos (day_of_year / 365.25 * 2 * π - 172.0 / 365.25 * 2 * π),
      Real.cos_le_one (day_of_year / 365.25 * 2 * π - 172.0 / 365.25 * 2 * π)]

/-- Witness for C7 at day 0. -/
theorem C7_declination_bounded_witness :
    (0 : ℝ) ≤ 0 ∧ (0 : ℝ) < 365 ∧
      (-23.44 ≤ solar_declination 0 ∧ solar_declination 0 ≤ 23.44) :=
  ⟨le_refl 0, by norm_num, C7_declination_bounded 0 (le_refl 0) (by norm_num)⟩

/-- C9 counterexample: starting from a state whose day counter indexes an
existing sample, one draw call moves the counter by 366, not by 365 — the
Rust loop `for i in 0..=365` runs 366 times. -/
theorem C9_draw_does_not_advance_365 :
    (AnnalemmaSimulation.draw_current_sun
        { sun_positions := [{ x := 0, y := 0, day := 0 }], current_day := 0,
          animation_speed := 1 }).1.current_day ≠ 0 + 365 := by
  unfold AnnalemmaSimulation.draw_current_sun
  simp [foldl_add_one_eq_add_length]

/-- C9 amended: whenever the day counter indexes an existing sample, the
draw call advances it by exactly 366 and leaves the precomputed positions
and the animation speed unchanged. -/
theorem C9_draw_advances_366 (s : AnnalemmaSimulation)
    (h : s.current_day < s.sun_positions.length) :
    (s.draw_current_sun).1.current_day = s.current_day + 366 ∧
      (s.draw_current_sun).1.sun_positions = s.sun_positions ∧
      (s.draw_current_sun).1.animation_speed = s.animation_speed := by
  unfold AnnalemmaSimulation.draw_current_sun
  rw [List.get?_eq_get h]
  simp [foldl_add_one_eq_add_length]

/-- Witness for C9 amended on a one-sample state at day 0. -/
theorem C9_draw_advances_366_witness :
    ((AnnalemmaSimulation.draw_current_sun
        { sun_positions := [{ x := 0, y := 0, day := 0 }], current_day := 0,
          animation_speed := 1 }).1.current_day = 0 + 366 ∧
      (AnnalemmaSimulation.draw_current_sun
        { sun_positions := [{ x := 0, y := 0, day := 0 }], current_day := 0,
          animation_speed := 1 }).1.sun_positions = [{ x := 0, y := 0, day := 0 }] ∧
      (AnnalemmaSimulation.draw_current_sun
        { sun_positions := [{ x := 0, y := 0, day := 0 }], current_day := 0,
          animation_speed := 1 }).1.animation_speed = 1) :=
  C9_draw_advances_366
    { sun_positions := [{ x := 0, y := 0, day := 0 }], current_day := 0,
      animation_speed := 1 } (by simp)

/-- C10: the current-day lookup in the draw call is total — it yields a
marker exactly when the counter indexes an existing sample, and on any
out-of-range counter it draws nothing and leaves the state untouched. -/
theorem C10_draw_lookup_total (s : AnnalemmaSimulation) :
    ((s.draw_current_sun).2.isSome ↔ s.current_day < s.sun_positions.length) ∧
      (s.sun_positions.length ≤ s.current_day → s.draw_current_sun = (s, none)) := by
  unfold AnnalemmaSimulation.draw_current_sun
  cases hg : s.sun_positions.get? s.current_day with
  | none =>
    have hlen := List.get?_eq_none.mp hg
    exact ⟨by simpa using Nat.not_lt.mpr hlen, fun _ => rfl⟩
  | some p =>
    obtain ⟨hlt, -⟩ := List.get?_eq_some.mp hg
    exact ⟨by simpa using hlt, fun hle => absurd hlt (Nat.not_lt.mpr hle)⟩

/-- Witness for C10 on an out-of-range state: empty path, day 400. -/
theorem C10_draw_lookup_total_witness :
    AnnalemmaSimulation.draw_current_sun
        { sun_positions := [], current_day := 400, animation_speed := 1 } =
      ({ sun_positions := [], current_day := 400, animation_speed := 1 }, none) :=
  (C10_draw_lookup_total
    { sun_positions := [], current_day := 400, animation_speed := 1 }).2 (by simp)

/-- C3 counterexample: advancing the state with day 364 and speed 1 by 60
elapsed seconds does not wrap to day 0. -/
theorem C3_update_not_zero :
    (AnnalemmaSimulation.update
        { sun_positions := [], current_day := 364, animation_speed := 1 } 60).current_day
      ≠ 0 := by
  show f64_as_u32 (f64_rem (((364 : ℕ) : ℝ) + 1 * 60 * 60.0) 365.0) ≠ 0
  have h1 : (((364 : ℕ) : ℝ) + 1 * 60 * 60.0) = 3964 := by norm_num
  have h2 : f64_trunc ((3964 : ℝ) / 365.0) = 10 := by
    rw [f64_trunc, if_pos (by norm_num)]
    rw [Int.floor_eq_iff]
    norm_num
  have h3 : f64_rem (3964 : ℝ) 365.0 = 314 := by
    rw [f64_rem, h2]; norm_num
  have h4 : f64_trunc (314 : ℝ) = 314 := by
    rw [f64_trunc, if_pos (by norm_num)]
    rw [Int.floor_eq_iff]
    norm_num
  rw [h1, f64_as_u32, h3, h4]
  norm_num

/-- C3 amended: advancing the state with day 364 and speed 1 by 60
elapsed seconds yields day `(364 + 1 * 60 * 60) mod 365 = 314`. -/
theorem C3_update_value :
    (AnnalemmaSimulation.update
        { sun_positions := [], current_day := 364, animation_speed := 1 } 60).current_day
      = 314 := by
  show f64_as_u32 (f64_rem (((364 : ℕ) : ℝ) + 1 * 60 * 60.0) 365.0) = 314
  have h1 : (((364 : ℕ) : ℝ) + 1 * 60 * 60.0) = 3964 := by norm_num
  have h2 : f64_trunc ((3964 : ℝ) / 365.0) = 10 := by
    rw [f64_trunc, if_pos (by norm_num)]
    rw [Int.floor_eq_iff]
    norm_num
  have h3 : f64_rem (3964 : ℝ) 365.0 = 314 := by
    rw [f64_rem, h2]; norm_num
  have h4 : f64_trunc (314 : ℝ) = 314 := by
    rw [f64_trunc, if_pos (by norm_num)]
    rw [Int.floor_eq_iff]
    norm_num
  rw [h1, f64_as_u32, h3, h4]
  norm_num
  rfl

/-- Lower bounds of the four season ranges named by the specification. -/
def seasonLo (i : Fin 4) : ℕ :=
  if i.val = 0 then 0 else if i.val = 1 then 80 else if i.val = 2 then 172 else 266

/-- Exclusive upper bounds of the four season ranges. -/
def seasonHi (i : Fin 4) : ℕ :=
  if i.val = 0 then 80 else if i.val = 1 then 172 else if i.val = 2 then 266 else 365

/-- Display colour band of each of the four season ranges, read off the
four match arms of `season_colour`. -/
def seasonBand (i : Fin 4) : ℚ × ℚ × ℚ × ℚ :=
  if i.val = 0 then (0.4, 0.4, 1.0, 1.0)
  else if i.val = 1 then (0.5, 1.0, 0.5, 1.0)
  else if i.val = 2 then (1.0, 0.8, 0.3, 1.0)
  else (1.0, 0.5, 0.2, 1.0)

/-- C8: every day in `[0, 365)` falls in exactly one of the four
contiguous season ranges, and the classification returns the band of the
range containing it. -/
theorem C8_season_classification (day : ℕ) (h : day < 365) :
    (∃! i : Fin 4, seasonLo i ≤ day ∧ day < seasonHi i) ∧
      ∀ i : Fin 4, seasonLo i ≤ day → day < seasonHi i → season_colour day = seasonBand i := by
  have hidx : ∀ j : Fin 4, j.val = 0 ∨ j.val = 1 ∨ j.val = 2 ∨ j.val = 3 := fun j => by omega
  have huniq : ∀ i : Fin 4, seasonLo i ≤ day → day < seasonHi i →
      ∀ j : Fin 4, seasonLo j ≤ day ∧ day < seasonHi j → j = i := by
    intro i hlo hhi j hj
    obtain ⟨hj1, hj2⟩ := hj
    apply Fin.ext
    rcases hidx i with hvi | hvi | hvi | hvi <;> rcases hidx j with hvj | hvj | hvj | hvj <;>
      simp [seasonLo, seasonHi, hvi, hvj] at hlo hhi hj1 hj2 ⊢ <;> omega
  constructor
  · by_cases h0 : day < 80
    · exact ⟨⟨0, by omega⟩, ⟨by simp [seasonLo], by simp [seasonHi]; omega⟩,
        fun j hj => huniq ⟨0, by omega⟩ (by simp [seasonLo]) (by simp [seasonHi]; omega) j hj⟩
    · by_cases h1 : day < 172
      · exact ⟨⟨1, by omega⟩, ⟨by simp [seasonLo]; omega, by simp [seasonHi]; omega⟩,
          fun j hj =>
            huniq ⟨1, by omega⟩ (by simp [seasonLo]; omega) (by simp [seasonHi]; omega) j hj⟩
      · by_cases h2 : day < 266
        · exact ⟨⟨2, by omega⟩, ⟨by simp [seasonLo]; omega, by simp [seasonHi]; omega⟩,
            fun j hj =>
              huniq ⟨2, by omega⟩ (by simp [seasonLo]; omega) (by simp [seasonHi]; omega) j hj⟩
        · exact ⟨⟨3, by omega⟩, ⟨by simp [seasonLo]; omega, by simp [seasonHi]; omega⟩,
            fun j hj =>
              huniq ⟨3, by omega⟩ (by simp [seasonLo]; omega) (by simp [seasonHi]; omega) j hj⟩
  · intro i hlo hhi
    rcases hidx i with hv | hv | hv | hv <;>
      simp [seasonLo, seasonHi, hv] at hlo hhi <;>
      simp only [seasonBand, hv] <;> norm_num <;>
      (unfold season_colour; split_ifs <;> first | rfl | (exfalso; omega) | norm_num)

/-- Witness for C8 at day 100 (spring band). -/
theorem C8_season_classification_witness :
    ((∃! i : Fin 4, seasonLo i ≤ 100 ∧ 100 < seasonHi i) ∧
      ∀ i : Fin 4, seasonLo i ≤ 100 → 100 < seasonHi i → season_colour 100 = seasonBand i) :=
  C8_season_classification 100 (by norm_num)

/-- Cosine of the phase constant 3.588 is negative, since 3.588 lies
strictly between π/2 and 3π/2. -/
theorem cos_phase_neg : Real.cos 3.588 < 0 := by
  apply Real.cos_neg_of_pi_div_two_lt_of_lt
  · linarith [Real.pi_lt_d6]
  · linarith [Real.pi_gt_d6]

/-- Value of the program's equation of time at day `365.25 * 7307 / 4`,
where its day angle is the quarter-multiple `7305 * π / 2`. -/
theorem eot_at_probe_day :
    equation_of_time (365.25 * 7307 / 4) = 7.873 * Real.cos 3.588 / 4 := by
  show (9.655 * Real.sin (2 * (365.25 * 7307 / 4 / 365.35 * 2 * π)) +
      7.873 * Real.sin (365.25 * 7307 / 4 / 365.35 * 2 * π + 3.588)) / 4.0 =
    7.873 * Real.cos 3.588 / 4
  have ha : (365.25 * 7307 / 4 / 365.35 * 2 : ℝ) = 7305 / 2 := by norm_num
  rw [ha]
  have hs1 : Real.sin (2 * ((7305 : ℝ) / 2 * π)) = 0 := by
    rw [show 2 * ((7305 : ℝ) / 2 * π) = ((7305 : ℤ) : ℝ) * π by push_cast; ring]
    exact Real.sin_int_mul_pi 7305
  have hs2 : Real.sin ((7305 : ℝ) / 2 * π + 3.588) = Real.cos 3.588 := by
    rw [show (7305 : ℝ) / 2 * π + 3.588 = (3.588 + π / 2) + ((1826 : ℤ) : ℝ) * (2 * π) by
      push_cast; ring]
    rw [Real.sin_add_int_mul_two_pi, Real.sin_add_pi_div_two]
  rw [hs1, hs2]
  norm_num

/-- Value of the specification's horizontal-offset formula with divisor
365.25 at day `365.25 * 7307 / 4`, where its day angle is the
quarter-multiple `7307 * π / 2`. -/
theorem spec_horizontal_at_probe_day (A1 A2 : ℝ) :
    spec_horizontal_offset A1 A2 365.25 (365.25 * 7307 / 4) = -(A2 * Real.cos 3.588) / 4 := by
  show (A1 * Real.sin (2 * (365.25 * 7307 / 4 / 365.25 * 2 * π)) +
      A2 * Real.sin (365.25 * 7307 / 4 / 365.25 * 2 * π + 3.588)) / 4 =
    -(A2 * Real.cos 3.588) / 4
  have ha : (365.25 * 7307 / 4 / 365.25 * 2 : ℝ) = 7307 / 2 := by norm_num
  rw [ha]
  have hs1 : Real.sin (2 * ((7307 : ℝ) / 2 * π)) = 0 := by
    rw [show 2 * ((7307 : ℝ) / 2 * π) = ((7307 : ℤ) : ℝ) * π by push_cast; ring]
    exact Real.sin_int_mul_pi 7307
  have hs2 : Real.sin ((7307 : ℝ) / 2 * π + 3.588) = -Real.cos 3.588 := by
    rw [show (7307 : ℝ) / 2 * π + 3.588 = ((3.588 + π / 2) + π) + ((1826 : ℤ) : ℝ) * (2 * π) by
      push_cast; ring]
    rw [Real.sin_add_int_mul_two_pi, Real.sin_add_pi, Real.sin_add_pi_div_two]
  rw [hs1, hs2]
  ring

/-- C1 counterexample: at the concrete day `365.25 * 7307 / 4` the
program's horizontal offset differs from the spec formula built on the
day-angle divisor 365.25 under both coefficient pairings — the code's day
angle divides by 365.35, not 365.25. -/
theorem C1_day_angle_divisor_differs :
    equation_of_time (365.25 * 7307 / 4) ≠
        spec_horizontal_offset 7.655 9.873 365.25 (365.25 * 7307 / 4) ∧
      equation_of_time (365.25 * 7307 / 4) ≠
        spec_horizontal_offset 9.655 7.873 365.25 (365.25 * 7307 / 4) := by
  have he := eot_at_probe_day
  have hc := cos_phase_neg
  constructor
  · intro hEq
    rw [he, spec_horizontal_at_probe_day] at hEq
    linarith
  · intro hEq
    rw [he, spec_horizontal_at_probe_day] at hEq
    linarith

/-- C1 amended: for every real day of year, the horizontal offset equals
`(9.655 * sin(2 * day_angle) + 7.873 * sin(day_angle + 3.588)) / 4` with
`day_angle = (day_of_year / 365.35) * 2π` — the second coefficient
pairing of the spec, but with divisor 365.35. -/
theorem C1_horizontal_offset_formula (day_of_year : ℝ) :
    equation_of_time day_of_year = spec_horizontal_offset 9.655 7.873 365.35 day_of_year := by
  show (9.655 * Real.sin (2 * (day_of_year / 365.35 * 2 * π)) +
      7.873 * Real.sin (day_of_year / 365.35 * 2 * π + 3.588)) / 4.0 =
    (9.655 * Real.sin (2 * (day_of_year / 365.35 * 2 * π)) +
      7.873 * Real.sin (day_of_year / 365.35 * 2 * π + 3.588)) / 4
  norm_num

/-- Value of the equation of time at the day `548.025 / π`, whose day
angle is exactly 3 radians, pushed down into the monotone window of sine
around 0 by subtracting full turns. -/
theorem eot_at_monotone_day :
    equation_of_time (548.025 / π) =
      (9.655 * Real.sin (6 - 2 * π) + 7.873 * Real.sin (6.588 - 2 * π)) / 4 := by
  show (9.655 * Real.sin (2 * (548.025 / π / 365.35 * 2 * π)) +
      7.873 * Real.sin (548.025 / π / 365.35 * 2 * π + 3.588)) / 4.0 = _
  have ha : 548.025 / π / 365.35 * 2 * π = 3 := by
    rw [div_div, div_mul_eq_mul_div, div_mul_eq_mul_div,
      div_eq_iff (by positivity : (π * 365.35 : ℝ) ≠ 0)]
    ring_nf
  rw [ha]
  have hs1 : Real.sin (2 * (3 : ℝ)) = Real.sin (6 - 2 * π) := by
    rw [show 2 * (3 : ℝ) = (6 - 2 * π) + 2 * π by ring, Real.sin_add_two_pi]
  have hs2 : Real.sin ((3 : ℝ) + 3.588) = Real.sin (6.588 - 2 * π) := by
    rw [show (3 : ℝ) + 3.588 = (6.588 - 2 * π) + 2 * π by ring_nf,
      Real.sin_add_two_pi]
  rw [hs1, hs2]
  norm_num

/-- Value of the equation of time one would-be period of 365.25 days
after `548.025 / π`: each sine argument lands `8π/7307` respectively
`4π/7307` short of the value at `548.025 / π`, full turns removed. -/
theorem eot_at_monotone_day_shifted :
    equation_of_time (548.025 / π + 365.25) =
      (9.655 * Real.sin (6 - 2 * π - 8 * π / 7307) +
        7.873 * Real.sin (6.588 - 2 * π - 4 * π / 7307)) / 4 := by
  show (9.655 * Real.sin (2 * ((548.025 / π + 365.25) / 365.35 * 2 * π)) +
      7.873 * Real.sin ((548.025 / π + 365.25) / 365.35 * 2 * π + 3.588)) / 4.0 = _
  have hπ : (π : ℝ) ≠ 0 := Real.pi_ne_zero
  have ha : (548.025 / π + 365.25) / 365.35 * 2 * π = 3 + 7305 / 7307 * (2 * π) := by
    field_simp
    ring_nf
  rw [ha]
  have hs1 : Real.sin (2 * ((3 : ℝ) + 7305 / 7307 * (2 * π))) =
      Real.sin (6 - 2 * π - 8 * π / 7307) := by
    rw [show 2 * ((3 : ℝ) + 7305 / 7307 * (2 * π)) =
        (6 - 2 * π - 8 * π / 7307) + ((3 : ℤ) : ℝ) * (2 * π) by push_cast; ring]
    exact Real.sin_add_int_mul_two_pi _ 3
  have hs2 : Real.sin (((3 : ℝ) + 7305 / 7307 * (2 * π)) + 3.588) =
      Real.sin (6.588 - 2 * π - 4 * π / 7307) := by
    rw [show ((3 : ℝ) + 7305 / 7307 * (2 * π)) + 3.588 =
        (6.588 - 2 * π - 4 * π / 7307) + ((2 : ℤ) : ℝ) * (2 * π) by push_cast; ring_nf]
    exact Real.sin_add_int_mul_two_pi _ 2
  rw [hs1, hs2]
  norm_num

/-- C2 counterexample: one would-be period of 365.25 days after the
concrete day `548.025 / π`, the horizontal coordinate of the sun
position has moved by more than 1/200 — far beyond floating-point
tolerance — so `position_for_day` is not 365.25-periodic: the equation
of time's day angle divides by 365.35. -/
theorem C2_not_periodic_365_25 :
    (1 / 200 : ℝ) <
        (calculate_sun_position (548.025 / π)).1 -
          (calculate_sun_position (548.025 / π + 365.25)).1 ∧
      (calculate_sun_position (548.025 / π + 365.25)).1 ≠
        (calculate_sun_position (548.025 / π)).1 := by
  have hπa := Real.pi_gt_d6
  have hπb := Real.pi_lt_d6
  have hprod : Real.sin (6 - 2 * π) - Real.sin (6 - 2 * π - 8 * π / 7307) =
      2 * Real.sin (4 * π / 7307) * Real.cos (6 - 2 * π - 4 * π / 7307) := by
    rw [Real.sin_sub_sin]
    rw [show ((6 - 2 * π) - (6 - 2 * π - 8 * π / 7307)) / 2 = 4 * π / 7307 by ring]
    rw [show ((6 - 2 * π) + (6 - 2 * π - 8 * π / 7307)) / 2 = 6 - 2 * π - 4 * π / 7307 by ring]
  have ht1 : (0 : ℝ) < 4 * π / 7307 := by positivity
  have hS : (0.0017 : ℝ) < Real.sin (4 * π / 7307) := by
    have ht2 : 4 * π / 7307 ≤ 1 := by linarith
    have hgt := Real.sin_gt_sub_cube ht1 ht2
    have hup : 4 * π / 7307 < (0.00172 : ℝ) := by linarith
    have hlo : (0.001719 : ℝ) < 4 * π / 7307 := by linarith
    have hcube : (4 * π / 7307 : ℝ) ^ 3 < (0.00172 : ℝ) ^ 3 :=
      pow_lt_pow_left hup ht1.le (by norm_num)
    have hnum : ((0.00172 : ℝ)) ^ 3 / 4 < 0.0000001 := by norm_num
    linarith
  have hC : (0.959 : ℝ) < Real.cos (6 - 2 * π - 4 * π / 7307) := by
    have h1 := Real.one_sub_sq_div_two_le_cos (x := 6 - 2 * π - 4 * π / 7307)
    have hm1 : (-0.285 : ℝ) < 6 - 2 * π - 4 * π / 7307 := by linarith
    have hm2 : (6 - 2 * π - 4 * π / 7307 : ℝ) < -0.284 := by linarith
    nlinarith [mul_pos (show (0 : ℝ) < 6 - 2 * π - 4 * π / 7307 + 0.285 by linarith)
      (show (0 : ℝ) < 0.285 - (6 - 2 * π - 4 * π / 7307) by linarith)]
  have hmono : Real.sin (6.588 - 2 * π - 4 * π / 7307) < Real.sin (6.588 - 2 * π) := by
    apply Real.sin_lt_sin_of_lt_of_le_pi_div_two <;> linarith
  have hSC : (2 : ℝ) * 0.0017 * 0.959 <
      2 * Real.sin (4 * π / 7307) * Real.cos (6 - 2 * π - 4 * π / 7307) := by
    nlinarith [mul_pos (sub_pos.mpr hS) (sub_pos.mpr hC)]
  have hgap : (1 / 200 : ℝ) <
      (calculate_sun_position (548.025 / π)).1 -
        (calculate_sun_position (548.025 / π + 365.25)).1 := by
    show (1 / 200 : ℝ) <
      equation_of_time (548.025 / π) - equation_of_time (548.025 / π + 365.25)
    rw [eot_at_monotone_day, eot_at_monotone_day_shifted]
    linarith
  exact ⟨hgap, fun hEq => by rw [hEq] at hgap; linarith⟩

/-- C2 amended: the vertical offset of `position_for_day` is exactly
periodic with period 365.25 days, while the horizontal offset is exactly
periodic with period 365.35 days (the divisor its day angle uses), not
365.25. -/
theorem C2_componentwise_periods (d : ℝ) :
    (calculate_sun_position (d + 365.25)).2 = (calculate_sun_position d).2 ∧
      (calculate_sun_position (d + 365.35)).1 = (calculate_sun_position d).1 := by
  constructor
  · show solar_declination (d + 365.25) = solar_declination d
    show 23.44 * Real.cos ((d + 365.25) / 365.25 * 2 * π - 172.0 / 365.25 * 2 * π) =
      23.44 * Real.cos (d / 365.25 * 2 * π - 172.0 / 365.25 * 2 * π)
    have h1 : (d + 365.25) / 365.25 = d / 365.25 + 1 := by rw [add_div]; norm_num
    rw [h1, show (d / 365.25 + 1) * 2 * π - 172.0 / 365.25 * 2 * π =
      (d / 365.25 * 2 * π - 172.0 / 365.25 * 2 * π) + 2 * π by ring, Real.cos_add_two_pi]
  · show equation_of_time (d + 365.35) = equation_of_time d
    show (9.655 * Real.sin (2 * ((d + 365.35) / 365.35 * 2 * π)) +
        7.873 * Real.sin ((d + 365.35) / 365.35 * 2 * π + 3.588)) / 4.0 =
      (9.655 * Real.sin (2 * (d / 365.35 * 2 * π)) +
        7.873 * Real.sin (d / 365.35 * 2 * π + 3.588)) / 4.0
    have h1 : (d + 365.35) / 365.35 = d / 365.35 + 1 := by rw [add_div]; norm_num
    have hs1 : Real.sin (2 * ((d / 365.35 + 1) * 2 * π)) =
        Real.sin (2 * (d / 365.35 * 2 * π)) := by
      rw [show 2 * ((d / 365.35 + 1) * 2 * π) =
          2 * (d / 365.35 * 2 * π) + ((2 : ℤ) : ℝ) * (2 * π) by push_cast; ring]
      exact Real.sin_add_int_mul_two_pi _ 2
    have hs2 : Real.sin ((d / 365.35 + 1) * 2 * π + 3.588) =
        Real.sin (d / 365.35 * 2 * π + 3.588) := by
      rw [show (d / 365.35 + 1) * 2 * π + 3.588 =
          (d / 365.35 * 2 * π + 3.588) + 2 * π by ring, Real.sin_add_two_pi]
    rw [h1, hs1, hs2]

end Analemma
